import Mathlib

/-!
Verification of the affinity-cli provisioning core against its design
specification.  Each module of the Python source is shallowly embedded as
executable Lean definitions (pure functions over explicit state), and the
spec's testable properties are proved or refuted about those definitions.

Modules embedded here:
* PrefixPreparer  (src/affinity_cli/core/prefix_preparer.py)
* WineManager archive extraction (src/affinity_cli/core/wine_manager.py)
* SmartDownloader (src/affinity_cli/core/downloader.py)
* InstallerScanner / InstallerDiscovery
  (src/affinity_cli/core/installer_scanner.py, src/affinity_cli/installer_discovery.py)
* DistroDetector  (src/affinity_cli/core/distro_detector.py)
* PreflightChecker (src/affinity_cli/core/preflight.py)
-/

namespace PrefixPreparer

/-- Embeds PrefixPreparer.PROFILE_COMPONENTS: the per-profile ordered lists of
winetricks component identifiers, exactly as in the source. -/
def PROFILE_COMPONENTS : List (String × List String) :=
  [ ("minimal",
      ["win11", "corefonts", "tahoma", "crypt32", "d3dcompiler_47"]),
    ("standard",
      ["win11", "corefonts", "tahoma", "crypt32", "d3dcompiler_47",
       "vcrun2022"]),
    ("full",
      ["win11", "corefonts", "tahoma", "crypt32", "d3dcompiler_47",
       "vcrun2022", "dotnet48", "dxvk", "vkd3d", "remove_mono"]) ]

/-- Dictionary lookup PROFILE_COMPONENTS[p] (as Option, mirroring dict.get). -/
def lookupComponents (p : String) : Option (List String) :=
  (PROFILE_COMPONENTS.find? (fun e => e.1 == p)).map (fun e => e.2)

/-- Observable outcome of one PrefixPreparer.prepare call on the success path:
the components handed to winetricks, the marker-file content afterwards, and
whether the call returned through the early no-op branch. -/
structure PrepResult where
  installed : List String
  marker : Option String
  noop : Bool
deriving Repr, DecidableEq

/-- Embeds PrefixPreparer.prepare (src/affinity_cli/core/prefix_preparer.py,
lines 57-93).  State passed explicitly: previousMarker is the stripped content
of the marker file (none when the file is absent), selfProfile is the
dataclass field self.profile.  The Python `profile = self.profile or
"standard"` defaulting, the invalid-profile SystemExit (modelled as .error),
the missing-component list comprehension, the early-return condition
`previous_profile == self.profile and not missing_components`, and the final
marker write of self.profile are all reproduced.  Subprocess side effects
(winecfg, winetricks, regedit) are assumed to succeed; `installed` records
exactly the list passed to _install_winetricks_components (empty when that
call is skipped). -/
def prepare (previousMarker : Option String) (selfProfile : String) :
    Except Unit PrepResult :=
  let profile := if selfProfile = "" then "standard" else selfProfile
  match lookupComponents profile with
  | none => .error ()
  | some targetComponents =>
    let previousComponents : List String :=
      match previousMarker with
      | some p => (lookupComponents p).getD []
      | none => []
    let missingComponents :=
      targetComponents.filter (fun c => !(previousComponents.contains c))
    if previousMarker = some selfProfile ∧ missingComponents = [] then
      .ok ⟨[], previousMarker, true⟩
    else
      .ok ⟨missingComponents, some selfProfile, false⟩

/-- Every successful prepare call leaves the marker equal to the requested
profile: the non-noop branch writes it, and the noop branch requires it. -/
theorem prepare_marker_eq (prev : Option String) (P : String) (r : PrepResult)
    (h : prepare prev P = .ok r) : r.marker = some P := by
  unfold prepare at h
  cases hl : lookupComponents (if P = "" then "standard" else P) with
  | none => simp [hl] at h
  | some tc =>
    simp only [hl] at h
    split at h
    · rename_i hcond
      cases h
      exact hcond.1
    · cases h
      rfl

end PrefixPreparer

/-- C4: EnvironmentPreparer.prepare(P) is idempotent: for every valid profile
P, a second prepare(P) right after a successful prepare(P), with no
intervening state change, reads a marker equal to P, computes an empty
missing set, installs zero components and returns through the early no-op
branch. -/
theorem C4_prepare_idempotent (P : String) (prev : Option String)
    (r1 : PrefixPreparer.PrepResult)
    (hP : P = "minimal" ∨ P = "standard" ∨ P = "full")
    (h1 : PrefixPreparer.prepare prev P = .ok r1) :
    PrefixPreparer.prepare r1.marker P = .ok ⟨[], some P, true⟩ := by
  have hm := PrefixPreparer.prepare_marker_eq prev P r1 h1
  rw [hm]
  rcases hP with h | h | h <;> subst h <;> rfl

/-- Witness for C4 at the concrete profile "minimal" starting from a never
prepared prefix. -/
theorem C4_prepare_idempotent_witness :
    PrefixPreparer.prepare (some "minimal") "minimal" =
      .ok ⟨[], some "minimal", true⟩ :=
  C4_prepare_idempotent "minimal" none
    ⟨["win11", "corefonts", "tahoma", "crypt32", "d3dcompiler_47"],
      some "minimal", false⟩
    (Or.inl rfl) rfl

/-- C5: prepare(full) after a prior successful prepare(minimal) installs
exactly the components of the full profile that are not in the minimal
profile (set difference, order preserved from the full profile's list), not
the entire full set again. -/
theorem C5_monotonic_upgrade :
    PrefixPreparer.prepare none "minimal" =
      .ok ⟨["win11", "corefonts", "tahoma", "crypt32", "d3dcompiler_47"],
           some "minimal", false⟩ ∧
    PrefixPreparer.prepare (some "minimal") "full" =
      .ok ⟨["vcrun2022", "dotnet48", "dxvk", "vkd3d", "remove_mono"],
           some "full", false⟩ ∧
    ((PrefixPreparer.lookupComponents "full").getD []).filter
        (fun c => !(((PrefixPreparer.lookupComponents "minimal").getD
          []).contains c)) =
      ["vcrun2022", "dotnet48", "dxvk", "vkd3d", "remove_mono"] :=
  ⟨rfl, rfl, rfl⟩

/-- C9: after every successful prepare(P) the marker contains exactly P; in
particular prepare(minimal) after prepare(full) is not a no-op, installs zero
components and rewrites the marker down to "minimal", so a later
prepare(full) reinstalls the difference components. -/
theorem C9_marker_downgrade (P : String) (prev : Option String)
    (r : PrefixPreparer.PrepResult)
    (h : PrefixPreparer.prepare prev P = .ok r) :
    r.marker = some P ∧
    PrefixPreparer.prepare (some "full") "minimal" =
      .ok ⟨[], some "minimal", false⟩ ∧
    PrefixPreparer.prepare (some "minimal") "full" =
      .ok ⟨["vcrun2022", "dotnet48", "dxvk", "vkd3d", "remove_mono"],
           some "full", false⟩ :=
  ⟨PrefixPreparer.prepare_marker_eq prev P r h, rfl, rfl⟩

/-- Witness for C9 at the concrete downgrade call prepare(minimal) on a
prefix whose marker reads "full". -/
theorem C9_marker_downgrade_witness :
    (PrefixPreparer.PrepResult.marker ⟨[], some "minimal", false⟩ =
        some "minimal") ∧
    PrefixPreparer.prepare (some "full") "minimal" =
      .ok ⟨[], some "minimal", false⟩ ∧
    PrefixPreparer.prepare (some "minimal") "full" =
      .ok ⟨["vcrun2022", "dotnet48", "dxvk", "vkd3d", "remove_mono"],
           some "full", false⟩ :=
  C9_marker_downgrade "minimal" (some "full") ⟨[], some "minimal", false⟩ rfl

namespace WineManager

/-- Path segments: the pieces between "/" separators of a POSIX path. -/
abbrev Segment := String

/-- Embeds pathlib's parsing of a path string into parts: empty segments
(from doubled slashes) and single-dot segments are dropped at construction,
".." segments are kept. -/
def parseParts (segs : List Segment) : List Segment :=
  segs.filter (fun s => !(s == "" || s == "."))

/-- Embeds Path.resolve() on an absolute path, lexically: acc is the resolved
part so far (segments below the filesystem root), ".." pops one segment (at
the root it stays at the root), "." and empty segments vanish, anything else
is appended.  The destination directory is freshly created and empty when
_safe_extract validates members, so resolve() has no symlinks to chase and
acts lexically. -/
def resolveFrom (acc : List Segment) : List Segment → List Segment
  | [] => acc
  | s :: rest =>
    if s = "" ∨ s = "." then resolveFrom acc rest
    else if s = ".." then resolveFrom acc.dropLast rest
    else resolveFrom (acc ++ [s]) rest

/-- Tar member path: pathlib distinguishes absolute paths (leading "/") from
relative ones; `Path(dest) / p` replaces dest entirely when p is absolute. -/
structure TarPath where
  absolute : Bool
  segs : List Segment
deriving Repr, DecidableEq

/-- Member kinds distinguished by _safe_extract: ischr/isblk/isfifo/isdev
collapse into special, islnk is hardlink, issym is symlink. -/
inductive MemberKind
  | regular
  | directory
  | symlink
  | hardlink
  | special
deriving Repr, DecidableEq

/-- A tar archive member as _safe_extract inspects it: its stored name, its
kind, and (for link members) its stored link target. -/
structure Member where
  name : TarPath
  kind : MemberKind
  linkname : TarPath
deriving Repr, DecidableEq

/-- Embeds `destination_path / member.name`: absolute member names replace
the destination, relative ones are appended (after pathlib parsing). -/
def joinPath (dest : List Segment) (p : TarPath) : List Segment :=
  if p.absolute then parseParts p.segs else dest ++ parseParts p.segs

/-- Embeds the containment test
`resolved_str == dest_str or resolved_str.startswith(dest_str + os.sep)` at
segment level: equal to the destination, or the destination's segments are a
prefix (for the filesystem root the startswith test degenerates, which the
dest.isEmpty guard reproduces). -/
def insideDest (dest p : List Segment) : Bool :=
  p == dest || (!dest.isEmpty && dest.isPrefixOf p)

/-- Resolved destination path of a member:
`(destination_path / member.name).resolve()`. -/
def memberResolved (dest : List Segment) (m : Member) : List Segment :=
  resolveFrom [] (joinPath dest m.name)

/-- Resolved link target of a link member:
`(member_path.parent / link_target).resolve()`. -/
def resolvedTarget (dest : List Segment) (m : Member) : List Segment :=
  resolveFrom [] ((joinPath dest m.name).dropLast ++ parseParts m.linkname.segs)

/-- Embeds the per-member validation inside the getmembers loop of
WineManager._safe_extract (src/affinity_cli/core/wine_manager.py, lines
309-332), with the source's check order: resolved-path containment first,
then special-file rejection, then the three link checks (absolute literal
target, ".." in the parsed literal target, resolved target containment). -/
def validateMember (dest : List Segment) (m : Member) : Except String Unit :=
  if !(insideDest dest (memberResolved dest m)) then
    .error "Archive member escapes destination"
  else if m.kind = MemberKind.special then
    .error "Archive contains unsupported special file"
  else if m.kind = MemberKind.symlink ∨ m.kind = MemberKind.hardlink then
    if m.linkname.absolute then
      .error "Archive contains unsafe link"
    else if (parseParts m.linkname.segs).contains ".." ||
        !(insideDest dest (resolvedTarget dest m)) then
      .error "Archive contains escaping link"
    else .ok ()
  else .ok ()

/-- Embeds the whole validation loop of _safe_extract: members are checked in
order and the first violation raises, so no member after it is reached and
nothing has been extracted yet (extractall runs only after the loop). -/
def safeExtractMembers (dest : List Segment) :
    List Member → Except String (List Member)
  | [] => .ok []
  | m :: rest =>
    match validateMember dest m with
    | .error e => .error e
    | .ok () =>
      match safeExtractMembers dest rest with
      | .error e => .error e
      | .ok safe => .ok (m :: safe)

/-- Result of WineManager._extract_archive: success flag plus the members
actually written into the destination directory. -/
structure ExtractResult where
  success : Bool
  extracted : List Member
deriving Repr, DecidableEq

/-- Embeds WineManager._extract_archive (lines 279-298): _safe_extract either
validates every member and extracts them all, or raises ValueError before
extractall has run, in which case the error is caught, the partial install is
cleaned up, and (False, message) is returned with nothing extracted. -/
def extractArchive (dest : List Segment) (members : List Member) :
    ExtractResult :=
  match safeExtractMembers dest members with
  | .ok safe => ⟨true, safe⟩
  | .error _ => ⟨false, []⟩

/-- A member escapes when its resolved destination path is not inside the
destination directory. -/
def escapes (dest : List Segment) (m : Member) : Bool :=
  !(insideDest dest (memberResolved dest m))

/-- Validation rejects an escaping member with the path-escape error. -/
theorem validateMember_escapes (dest : List Segment) (m : Member)
    (h : escapes dest m = true) :
    validateMember dest m = .error "Archive member escapes destination" := by
  unfold validateMember
  unfold escapes at h
  rw [if_pos h]

/-- The validation loop fails whenever any member of the archive fails its
own validation. -/
theorem safeExtractMembers_error_of_mem (dest : List Segment)
    (members : List Member) (m : Member) (e : String) (hm : m ∈ members)
    (hv : validateMember dest m = .error e) :
    ∃ e', safeExtractMembers dest members = .error e' := by
  induction members with
  | nil => cases hm
  | cons hd tl ih =>
    rcases List.mem_cons.mp hm with rfl | hm'
    · exact ⟨e, by simp [safeExtractMembers, hv]⟩
    · unfold safeExtractMembers
      cases hhd : validateMember dest hd with
      | error e'' => exact ⟨e'', rfl⟩
      | ok u =>
        cases u
        obtain ⟨e', he'⟩ := ih hm'
        exact ⟨e', by simp [he']⟩

/-- When the validation loop succeeds, every member passed its validation. -/
theorem safeExtractMembers_ok_forall (dest : List Segment)
    (members safe : List Member)
    (h : safeExtractMembers dest members = .ok safe) :
    ∀ m ∈ members, validateMember dest m = .ok () := by
  induction members generalizing safe with
  | nil => intro m hm; cases hm
  | cons hd tl ih =>
    intro m hm
    unfold safeExtractMembers at h
    cases hhd : validateMember dest hd with
    | error e => rw [hhd] at h; cases h
    | ok u =>
      cases u
      rw [hhd] at h
      cases htl : safeExtractMembers dest tl with
      | error e => rw [htl] at h; cases h
      | ok safe' =>
        rcases List.mem_cons.mp hm with rfl | hm'
        · exact hhd
        · exact ih safe' htl m hm'

end WineManager

namespace WineManager

/-- A link member that passed validation satisfies all three link checks:
relative literal target, no ".." segment in the parsed literal target, and
resolved target inside the destination. -/
theorem validateMember_ok_link (dest : List Segment) (m : Member)
    (hlink : m.kind = MemberKind.symlink ∨ m.kind = MemberKind.hardlink)
    (h : validateMember dest m = .ok ()) :
    m.linkname.absolute = false ∧
    (parseParts m.linkname.segs).contains ".." = false ∧
    insideDest dest (resolvedTarget dest m) = true := by
  unfold validateMember at h
  split_ifs at h with h1 h2 h3 h4
  simp only [Bool.or_eq_true, Bool.not_eq_true', not_or, Bool.not_eq_true,
    Bool.not_eq_false] at h4
  exact ⟨by simpa using h3, h4.1, h4.2⟩

/-- A link member whose resolved target lies outside the destination never
passes validation, whatever else is true of it. -/
theorem validateMember_error_link (dest : List Segment) (m : Member)
    (hlink : m.kind = MemberKind.symlink ∨ m.kind = MemberKind.hardlink)
    (htgt : insideDest dest (resolvedTarget dest m) = false) :
    ∃ e, validateMember dest m = .error e := by
  unfold validateMember
  split_ifs with h1 h2 h3 h4
  · exact ⟨_, rfl⟩
  · exact ⟨_, rfl⟩
  · exact ⟨_, rfl⟩
  · exact ⟨_, rfl⟩
  · exact absurd (by simp [htgt]) h4

end WineManager

/-- C1: for every archive containing a member whose resolved destination path
lies outside the destination directory, _extract_archive returns failure and
the destination contains none of the archive's files: every member is
validated before any member is extracted, so a single path-escape violation
aborts the whole archive with nothing written. -/
theorem C1_escape_aborts_whole_archive (dest : List WineManager.Segment)
    (members : List WineManager.Member) (m : WineManager.Member)
    (hm : m ∈ members) (hesc : WineManager.escapes dest m = true) :
    WineManager.extractArchive dest members = ⟨false, []⟩ := by
  obtain ⟨e', he'⟩ :=
    WineManager.safeExtractMembers_error_of_mem dest members m _ hm
      (WineManager.validateMember_escapes dest m hesc)
  unfold WineManager.extractArchive
  rw [he']

/-- Witness for C1: a member named "../../../etc/passwd" inside an archive
extracted to /home/user/.local/wine resolves outside the destination, and
extraction of the whole archive fails with nothing written.  The archive also
contains a perfectly safe member, which is still not extracted. -/
theorem C1_escape_aborts_whole_archive_witness :
    WineManager.escapes ["home", "user", ".local", "wine"]
        ⟨⟨false, ["..", "..", "..", "etc", "passwd"]⟩,
          WineManager.MemberKind.regular, ⟨false, []⟩⟩ = true ∧
    WineManager.extractArchive ["home", "user", ".local", "wine"]
        [⟨⟨false, ["bin"]⟩, WineManager.MemberKind.directory, ⟨false, []⟩⟩,
         ⟨⟨false, ["..", "..", "..", "etc", "passwd"]⟩,
           WineManager.MemberKind.regular, ⟨false, []⟩⟩] =
      ⟨false, []⟩ :=
  ⟨rfl,
    C1_escape_aborts_whole_archive ["home", "user", ".local", "wine"] _ _
      (List.mem_cons_of_mem _ (List.mem_singleton.mpr rfl)) rfl⟩

/-- C2: a symbolic or hard link member is extracted only when its literal
target is relative, its parsed literal target contains no ".." segment, and
its resolved target stays inside the destination; and an archive containing
a link whose resolved target escapes the destination always fails to
extract. -/
theorem C2_link_target_safety (dest : List WineManager.Segment)
    (members : List WineManager.Member) (m : WineManager.Member)
    (hm : m ∈ members)
    (hlink : m.kind = WineManager.MemberKind.symlink ∨
      m.kind = WineManager.MemberKind.hardlink) :
    ((WineManager.extractArchive dest members).success = true →
      m.linkname.absolute = false ∧
      (WineManager.parseParts m.linkname.segs).contains ".." = false ∧
      WineManager.insideDest dest (WineManager.resolvedTarget dest m) =
        true) ∧
    (WineManager.insideDest dest (WineManager.resolvedTarget dest m) =
        false →
      (WineManager.extractArchive dest members).success = false) := by
  constructor
  · intro hsucc
    unfold WineManager.extractArchive at hsucc
    cases hsafe : WineManager.safeExtractMembers dest members with
    | error e => rw [hsafe] at hsucc; cases hsucc
    | ok safe =>
      exact WineManager.validateMember_ok_link dest m hlink
        (WineManager.safeExtractMembers_ok_forall dest members safe hsafe m
          hm)
  · intro htgt
    obtain ⟨e, he⟩ :=
      WineManager.validateMember_error_link dest m hlink htgt
    obtain ⟨e', he'⟩ :=
      WineManager.safeExtractMembers_error_of_mem dest members m e hm he
    unfold WineManager.extractArchive
    rw [he']

/-- Witness for C2: a symlink named "link" pointing at "../../etc" inside an
archive extracted to /opt/wine resolves to /etc, outside the destination. -/
theorem C2_link_target_safety_witness :
    ((WineManager.extractArchive ["opt", "wine"]
        [⟨⟨false, ["link"]⟩, WineManager.MemberKind.symlink,
          ⟨false, ["..", "..", "etc"]⟩⟩]).success = true →
      (⟨false, ["..", "..", "etc"]⟩ : WineManager.TarPath).absolute = false ∧
      (WineManager.parseParts ["..", "..", "etc"]).contains ".." = false ∧
      WineManager.insideDest ["opt", "wine"]
        (WineManager.resolvedTarget ["opt", "wine"]
          ⟨⟨false, ["link"]⟩, WineManager.MemberKind.symlink,
            ⟨false, ["..", "..", "etc"]⟩⟩) = true) ∧
    (WineManager.insideDest ["opt", "wine"]
        (WineManager.resolvedTarget ["opt", "wine"]
          ⟨⟨false, ["link"]⟩, WineManager.MemberKind.symlink,
            ⟨false, ["..", "..", "etc"]⟩⟩) = false →
      (WineManager.extractArchive ["opt", "wine"]
        [⟨⟨false, ["link"]⟩, WineManager.MemberKind.symlink,
          ⟨false, ["..", "..", "etc"]⟩⟩]).success = false) :=
  C2_link_target_safety ["opt", "wine"] _ _ (List.mem_singleton.mpr rfl)
    (Or.inl rfl)

namespace Downloader

/-- Byte streams: file contents and network payloads as lists of bytes. -/
abbrev Bytes := List Nat

/-- SHA-256 is modelled as an ideal collision-free digest: the digest of a
byte stream is the stream itself.  hashlib's incremental interface (update
per chunk, hexdigest at the end) digests exactly the concatenation of the
hashed chunks, which this model preserves; the only property of SHA-256 the
downloader relies on is that digest equality identifies content equality. -/
def sha256 (b : Bytes) : Bytes := b

/-- Observable outcome of SmartDownloader._stream_to_file: the destination
file's content afterwards (none when absent or deleted), whether the call
returned normally (ok) or raised DownloadError, and the raised message. -/
structure StreamResult where
  file : Option Bytes
  ok : Bool
  errorMsg : Option String
deriving Repr, DecidableEq

/-- Embeds the post-stream checksum verification of _stream_to_file
(downloader.py lines 290-293): with no expected checksum the file is kept;
with one, the running digest is compared against it
(_verify_checksum with precomputed=hasher.hexdigest()) and a mismatch
unlinks the destination and raises DownloadError. -/
def finishStream (content digest : Bytes) (expected : Option Bytes) :
    StreamResult :=
  match expected with
  | none => ⟨some content, true, none⟩
  | some exp =>
    if digest = exp then ⟨some content, true, none⟩
    else ⟨none, false, some "Checksum mismatch after download; file removed."⟩

/-- Whenever the post-stream verification fails, the destination file has
been removed: no failing call leaves a file behind. -/
theorem finishStream_not_ok (content digest : Bytes)
    (expected : Option Bytes)
    (h : (finishStream content digest expected).ok = false) :
    (finishStream content digest expected).file = none := by
  unfold finishStream at h ⊢
  match expected with
  | none => simp at h
  | some exp =>
    by_cases hd : digest = exp
    · simp [hd] at h
    · simp [hd]

/-- Embeds SmartDownloader._stream_to_file (downloader.py lines 252-293).
The network is abstracted as a server holding `payload` and honoring Range
requests: a resume request from position p ≥ len(payload) with p > 0 answers
416, upon which the code unlinks the partial file and restarts from zero;
otherwise the bytes from p onward are streamed, appended to the existing
partial content (mode "ab" when resuming, "wb" otherwise), while the SHA-256
hasher is fed exactly the newly fetched chunks.  Transport exceptions
(DownloadError before verification) are outside this model. -/
def streamToFile (payload : Bytes) (existing : Option Bytes)
    (expected : Option Bytes) : StreamResult :=
  let resumePos := (existing.map List.length).getD 0
  if 0 < resumePos ∧ payload.length ≤ resumePos then
    finishStream payload (sha256 payload) expected
  else
    let fetched := payload.drop resumePos
    let content := (existing.getD []) ++ fetched
    finishStream content (sha256 fetched) expected

/-- Observable outcome of SmartDownloader.ensure_universal: the cache file's
content afterwards, the content of the returned installer path (none when a
DownloadError was raised), whether the cached file was returned without any
network activity, and whether a download was attempted. -/
structure EnsureResult where
  file : Option Bytes
  returned : Option Bytes
  usedCache : Bool
  downloaded : Bool
deriving Repr, DecidableEq

/-- A download attempt through _stream_to_file, as ensure_universal performs
it after URL resolution. -/
def downloadStep (payload : Bytes) (existing : Option Bytes)
    (expected : Option Bytes) : EnsureResult :=
  let r := streamToFile payload existing expected
  ⟨r.file, if r.ok then r.file else none, false, true⟩

/-- Embeds SmartDownloader.ensure_universal (downloader.py lines 84-107).
State passed explicitly: `cached` is the destination file's content (none
when absent), `payload` the bytes the resolved URL serves, `expected` the
optional expected SHA-256.  A cached file is used only when it exists with
size > 0; with an expected checksum it is fully re-hashed in place
(_verify_checksum without precomputed), returned on a match, and unlinked
before a fresh download on a mismatch.  URL resolution is abstracted: some
strategy yields a URL serving `payload` (the no-URL DownloadError is outside
this model). -/
def ensureUniversal (payload : Bytes) (cached : Option Bytes)
    (expected : Option Bytes) : EnsureResult :=
  match cached with
  | some c =>
    if 0 < c.length then
      match expected with
      | some exp =>
        if sha256 c = exp then ⟨some c, some c, true, false⟩
        else downloadStep payload none expected
      | none => ⟨some c, some c, true, false⟩
    else downloadStep payload (some c) expected
  | none => downloadStep payload none expected

end Downloader

/-- C3: downloading with a supplied correct checksum succeeds and leaves a
file whose SHA-256 matches that checksum, from every cache state (absent,
empty, partial or complete file — covering the partial-file states the
resumable download path exists for); an incorrect checksum against an
existing cached file forces a re-download instead of using the cache; and a
checksum mismatch after the stream completes deletes the file and raises, so
a file failing its checksum is never left on disk looking complete. -/
theorem C3_checksum_round_trip :
    (∀ (payload : Downloader.Bytes) (cached : Option Downloader.Bytes),
      ∃ f, (Downloader.ensureUniversal payload cached
              (some (Downloader.sha256 payload))).returned = some f ∧
        (Downloader.ensureUniversal payload cached
          (some (Downloader.sha256 payload))).file = some f ∧
        Downloader.sha256 f = Downloader.sha256 payload) ∧
    (∀ (payload c exp : Downloader.Bytes), 0 < c.length →
      Downloader.sha256 c ≠ exp →
      (Downloader.ensureUniversal payload (some c) (some exp)).usedCache =
          false ∧
      (Downloader.ensureUniversal payload (some c) (some exp)).downloaded =
          true) ∧
    (∀ (payload : Downloader.Bytes) (existing : Option Downloader.Bytes)
        (exp : Downloader.Bytes),
      (Downloader.streamToFile payload existing (some exp)).ok = false →
      (Downloader.streamToFile payload existing (some exp)).file = none) := by
  refine ⟨?_, ?_, ?_⟩
  · intro payload cached
    match cached with
    | none =>
      exact ⟨payload, by
        simp [Downloader.ensureUniversal, Downloader.downloadStep,
          Downloader.streamToFile, Downloader.finishStream, Downloader.sha256]⟩
    | some c =>
      by_cases hc : 0 < c.length
      · by_cases heq : Downloader.sha256 c = Downloader.sha256 payload
        · exact ⟨c, by
            simp [Downloader.ensureUniversal, hc, heq]⟩
        · have heq' : c ≠ payload := by simpa [Downloader.sha256] using heq
          exact ⟨payload, by
            simp [Downloader.ensureUniversal, hc, heq',
              Downloader.downloadStep, Downloader.streamToFile,
              Downloader.finishStream, Downloader.sha256]⟩
      · have hc0 : c = [] := List.length_eq_zero.mp (by omega)
        subst hc0
        exact ⟨payload, by
          simp [Downloader.ensureUniversal, Downloader.downloadStep,
            Downloader.streamToFile, Downloader.finishStream,
            Downloader.sha256]⟩
  · intro payload c exp hc hne
    constructor <;>
      simp [Downloader.ensureUniversal, hc, hne, Downloader.downloadStep]
  · intro payload existing exp
    simp only [Downloader.streamToFile]
    split <;> exact fun h => Downloader.finishStream_not_ok _ _ _ h

/-- Witness for C3: the cache holds the single byte 1, the expected checksum
is that of the two-byte payload 7,8, so the cached file fails verification
and a fresh download is forced. -/
theorem C3_checksum_round_trip_witness :
    (Downloader.ensureUniversal [7, 8] (some [1]) (some [7, 8])).usedCache =
        false ∧
    (Downloader.ensureUniversal [7, 8] (some [1]) (some [7, 8])).downloaded =
        true :=
  C3_checksum_round_trip.2.1 [7, 8] [1] [7, 8] (by decide) (by decide)

/-- C10: a destination file that exists but is zero bytes long is treated as
absent by ensure_universal: it is never returned as the cached installer,
with or without an expected checksum, and a fresh download is attempted. -/
theorem C10_zero_byte_cache_ignored (payload : Downloader.Bytes)
    (expected : Option Downloader.Bytes) :
    (Downloader.ensureUniversal payload (some []) expected).usedCache =
        false ∧
    (Downloader.ensureUniversal payload (some []) expected).downloaded =
        true := by
  cases expected <;> exact ⟨rfl, rfl⟩

namespace InstallerScanner

/-- Characters the tokenizer keeps: the regex [^a-z0-9]+ splits the lowered
stem, so token characters are ascii lowercase letters and digits. -/
def isTokenChar (c : Char) : Bool :=
  (decide ('a' ≤ c) && decide (c ≤ 'z')) ||
  (decide ('0' ≤ c) && decide (c ≤ '9'))

/-- ASCII lowercasing of one character (str.lower(); the filename patterns
only ever match ASCII, so non-ASCII characters, which str.lower() may also
map, never influence any comparison made with the result). -/
def lowerChar (c : Char) : Char :=
  if 'A' ≤ c ∧ c ≤ 'Z' then Char.ofNat (c.toNat + 32) else c

/-- Lowercase a character list. -/
def lowerChars (cs : List Char) : List Char :=
  cs.map lowerChar

/-- Lowercase a string (str.lower()). -/
def lowerStr (s : String) : String :=
  String.mk (lowerChars s.toList)

/-- Code-point lexicographic comparison (Python string <). -/
def charsLt : List Char → List Char → Bool
  | [], [] => false
  | [], _ :: _ => true
  | _ :: _, [] => false
  | a :: as, b :: bs =>
    if a < b then true else if b < a then false else charsLt as bs

/-- Python string comparison a < b. -/
def strLtb (a b : String) : Bool :=
  charsLt a.toList b.toList

/-- Split a character list on the dot character (str.split(".")). -/
def splitDots : List Char → List (List Char)
  | [] => [[]]
  | c :: rest =>
    if c = '.' then [] :: splitDots rest
    else
      match splitDots rest with
      | h :: t => (c :: h) :: t
      | [] => [[c]]

/-- Maximal token-character runs of a character list.  re.split also
produces empty strings at the edges when the string starts or ends with a
separator; no caller distinguishes them (all lookups are for nonempty
tokens), so they are dropped here. -/
def tokenRuns : List Char → List Char → List String
  | acc, [] => if acc.isEmpty then [] else [String.mk acc.reverse]
  | acc, c :: cs =>
    if isTokenChar c then tokenRuns (c :: acc) cs
    else if acc.isEmpty then tokenRuns [] cs
    else String.mk acc.reverse :: tokenRuns [] cs

/-- Embeds `re.split(r"[^a-z0-9]+", path.stem.lower())`. -/
def tokenize (s : String) : List String :=
  tokenRuns [] (lowerChars s.toList)

/-- Embeds pathlib's Path.suffix: the substring from the last dot of the
final component, empty when there is no dot, when the name starts with the
dot (hidden file), or when it ends with it. -/
def fileSuffix (name : String) : String :=
  let cs := name.toList
  let after := cs.reverse.takeWhile (fun c => c ≠ '.')
  if after.length = cs.length then ""
  else if after.length = 0 then ""
  else if cs.length - after.length - 1 = 0 then ""
  else String.mk ('.' :: after.reverse)

/-- Embeds pathlib's Path.stem: the file name with its suffix removed. -/
def fileStem (name : String) : String :=
  name.dropRight (fileSuffix name).length

/-- Maximal digit run at the head of a character list, with the rest. -/
def digitRun : List Char → List Char × List Char
  | [] => ([], [])
  | c :: cs =>
    if c.isDigit then
      let (d, r) := digitRun cs
      (c :: d, r)
    else ([], c :: cs)

/-- Greedy parse of the regex tail (?:\.\d+)+ : as many ".digits" groups as
possible, returning the matched characters (empty when no group matches).
Greediness is faithful: a shorter digit run would leave a digit where the
pattern requires a dot, so the regex engine's backtracking never helps.
Each group consumes at least two characters, so running on structural fuel
equal to the list length computes the full greedy match. -/
def dotGroupsFuel : Nat → List Char → List Char
  | 0, _ => []
  | _ + 1, [] => []
  | fuel + 1, c :: rest =>
    if c = '.' then
      match digitRun rest with
      | ([], _) => []
      | (d :: ds, r) => '.' :: ((d :: ds) ++ dotGroupsFuel fuel r)
    else []

/-- Entry point of the (?:\.\d+)+ parse with adequate fuel. -/
def dotGroups (cs : List Char) : List Char :=
  dotGroupsFuel cs.length cs

/-- Attempt of VERSION_RE = (?P<prefix>v)?(?P<version>\d+(?:\.\d+)+) at one
position: a digit run followed by at least one ".digits" group (the
optional leading "v" does not change the captured version group). -/
def versionAt (cs : List Char) : Option String :=
  match digitRun cs with
  | ([], _) => none
  | (d :: ds, r) =>
    let g := dotGroups r
    if g.isEmpty then none else some (String.mk ((d :: ds) ++ g))

/-- Embeds VERSION_RE.search over the full file name: leftmost position at
which the version pattern matches. -/
def versionSearch : List Char → Option String
  | [] => none
  | c :: cs =>
    match versionAt (c :: cs) with
    | some v => some v
    | none => versionSearch cs

/-- Embeds PRODUCT_ALIASES from installer_scanner.py, in dict order. -/
def PRODUCT_ALIASES : List (String × List String) :=
  [ ("photo", ["photo", "aphoto", "affinityphoto"]),
    ("designer", ["designer", "adesigner", "affinitydesigner"]),
    ("publisher", ["publisher", "apublisher", "affinitypublisher"]) ]

/-- Embeds InstallerScanner._extract_product: the first product (dict order)
any of whose aliases occurs among the tokens. -/
def extractProduct (tokens : List String) : Option String :=
  (PRODUCT_ALIASES.find?
    (fun pa => pa.2.any (fun a => tokens.contains a))).map (fun pa => pa.1)

/-- Decimal value of a digit-character list (Python int()). -/
def parseNat (cs : List Char) : Nat :=
  cs.foldl (fun n c => n * 10 + (c.toNat - '0'.toNat)) 0

/-- Embeds InstallerScanner._infer_version_type: major version ≥ 2, or an
"msi" or "v2" token, classifies as "v2", otherwise "v1". -/
def inferVersionType (label : String) (tokens : List String) : String :=
  let major := parseNat ((splitDots label.toList).headD [])
  if 2 ≤ major || tokens.contains "msi" || tokens.contains "v2" then "v2"
  else "v1"

/-- An installer candidate as installer_scanner.py builds it; the path is
modelled by the file's name inside the search root. -/
structure InstallerCandidate where
  product : String
  version_type : String
  version_label : String
  name : String
  size_bytes : Nat
deriving Repr, DecidableEq

/-- Embeds InstallerScanner._parse_candidate (installer_scanner.py lines
75-96): require the "affinity" token in the tokenized stem, a known product
alias, and a version in the file name; stat failures default the size, which
the model's size input already covers. -/
def parseCandidate (name : String) (size : Nat) :
    Option InstallerCandidate :=
  let tokens := tokenize (fileStem name)
  if !(tokens.contains "affinity") then none
  else
    match extractProduct tokens with
    | none => none
    | some product =>
      match versionSearch name.toList with
      | none => none
      | some label =>
        some ⟨product, inferVersionType label tokens, label, name, size⟩

/-- Stable insertion of one element with respect to a boolean le. -/
def insertSorted {α : Type} (le : α → α → Bool) (x : α) :
    List α → List α
  | [] => [x]
  | y :: ys => if le x y then x :: y :: ys else y :: insertSorted le x ys

/-- Python's sorted() (stable) modelled as stable insertion sort with the
same key. -/
def sortBy {α : Type} (le : α → α → Bool) (l : List α) : List α :=
  l.foldr (insertSorted le) []

/-- Sort key of InstallerScanner.scan:
(product, version_type, version_label, name.lower()), compared as Python
compares string tuples (code-point lexicographic, left to right). -/
def candLe (a b : InstallerCandidate) : Bool :=
  if a.product ≠ b.product then strLtb a.product b.product
  else if a.version_type ≠ b.version_type then
    strLtb a.version_type b.version_type
  else if a.version_label ≠ b.version_label then
    strLtb a.version_label b.version_label
  else
    lowerStr a.name == lowerStr b.name ||
      strLtb (lowerStr a.name) (lowerStr b.name)

/-- Embeds InstallerScanner.scan (installer_scanner.py lines 42-55) over an
existing search root, modelled as the list of (file name, size) pairs its
recursive walk visits: keep files whose lowered suffix is in
INSTALLER_SUFFIXES, parse each candidate, sort deterministically. -/
def scan (files : List (String × Nat)) : List InstallerCandidate :=
  sortBy candLe
    (files.filterMap (fun f =>
      if [".exe", ".msi", ".msix"].contains (lowerStr (fileSuffix f.1)) then
        parseCandidate f.1 f.2
      else none))

end InstallerScanner

namespace InstallerDiscovery

/-- Strip a literal from the head of a character list (a regex literal
piece of INSTALLER_PATTERN). -/
def dropLit (lit : String) (cs : List Char) : Option (List Char) :=
  if lit.toList.isPrefixOf cs then some (cs.drop lit.length) else none

/-- Parse the regex tail ([0-9]+\.[0-9]+\.[0-9]+)\.exe$ : three dotted digit
runs, then the literal ".exe" and end of string, returning the captured
version group.  Digit runs are greedy; shortening one leaves a digit where
the pattern requires a dot, so backtracking never helps. -/
def parseDotted3End (cs : List Char) : Option String :=
  match InstallerScanner.digitRun cs with
  | ([], _) => none
  | (d1, r1) =>
    match r1 with
    | '.' :: r1' =>
      match InstallerScanner.digitRun r1' with
      | ([], _) => none
      | (d2, r2) =>
        match r2 with
        | '.' :: r2' =>
          match InstallerScanner.digitRun r2' with
          | ([], _) => none
          | (d3, r3) =>
            if r3 = ".exe".toList then
              some (String.mk (d1 ++ '.' :: (d2 ++ '.' :: d3)))
            else none
        | _ => none
    | _ => none

/-- Embeds INSTALLER_PATTERN.match (installer_discovery.py lines 18-21):
^affinity-(photo|designer|publisher)(-msi)?-([0-9]+\.[0-9]+\.[0-9]+)\.exe$
with re.IGNORECASE, returning (product, msi marker present, file version).
When "-msi-" matches but the version does not, the regex's no-msi
alternative would require a digit where "msi" stands, so it fails too and
the shortcut is faithful. -/
def installerPatternMatch (name : String) :
    Option (String × Bool × String) :=
  let cs := InstallerScanner.lowerChars name.toList
  match dropLit "affinity-" cs with
  | none => none
  | some r =>
    ["photo", "designer", "publisher"].findSome? (fun p =>
      match dropLit p r with
      | none => none
      | some r2 =>
        match dropLit "-msi-" r2 with
        | some r3 => (parseDotted3End r3).map (fun v => (p, true, v))
        | none =>
          match dropLit "-" r2 with
          | some r3 => (parseDotted3End r3).map (fun v => (p, false, v))
          | none => none)

/-- An installer record as installer_discovery.py builds it; the path is
modelled by the file's name inside the scanned directory. -/
structure InstallerInfo where
  product : String
  version : String
  file_version : String
  name : String
deriving Repr, DecidableEq

/-- Numeric components of a dotted version, as packaging.Version's release
tuple for the plain x.y.z versions INSTALLER_PATTERN admits. -/
def versionNums (s : String) : List Nat :=
  (InstallerScanner.splitDots s.toList).map InstallerScanner.parseNat

/-- Lexicographic comparison of release tuples (Python tuple ordering). -/
def natListLt : List Nat → List Nat → Bool
  | [], [] => false
  | [], _ :: _ => true
  | _ :: _, [] => false
  | a :: as, b :: bs =>
    if a < b then true else if b < a then false else natListLt as bs

/-- Sort key of InstallerDiscovery.scan:
(product, version, Version(file_version)). -/
def infoLe (a b : InstallerInfo) : Bool :=
  if a.product ≠ b.product then InstallerScanner.strLtb a.product b.product
  else if a.version ≠ b.version then
    InstallerScanner.strLtb a.version b.version
  else !(natListLt (versionNums b.file_version)
    (versionNums a.file_version))

/-- Embeds InstallerDiscovery.scan (installer_discovery.py lines 44-67) over
an existing directory, modelled as the list of file names iterdir yields:
keep names matching INSTALLER_PATTERN, classify v2 exactly when the msi
marker group matched, sort by (product, version, Version(file_version)). -/
def scan (files : List String) : List InstallerInfo :=
  InstallerScanner.sortBy infoLe
    (files.filterMap (fun n =>
      (installerPatternMatch n).map (fun pv =>
        ⟨pv.1, if pv.2.1 then "v2" else "v1", pv.2.2, n⟩)))

/-- Embeds InstallerDiscovery.select_installer (installer_discovery.py lines
69-90): filter the scan by product, FileNotFoundError (modelled as .error)
when empty; with a preferred version return the last (highest-version)
matching candidate or error; otherwise prefer the last v2 candidate,
falling back to the last candidate overall. -/
def selectInstaller (files : List String) (product : String)
    (preferredVersion : Option String) : Except String InstallerInfo :=
  let candidates := (scan files).filter (fun i => i.product == product)
  match candidates.getLast? with
  | none => .error "No installers found"
  | some lastCandidate =>
    match preferredVersion with
    | some v =>
      match (candidates.filter (fun i => i.version == v)).getLast? with
      | none => .error "Installers exist but not for preferred version"
      | some c => .ok c
    | none =>
      match (candidates.filter (fun i => i.version == "v2")).getLast? with
      | some c => .ok c
      | none => .ok lastCandidate

end InstallerDiscovery

/-- Decidable equality for Except results, used to evaluate selection
outcomes at concrete inputs. -/
instance {e a : Type} [DecidableEq e] [DecidableEq a] :
    DecidableEq (Except e a) := fun x y =>
  match x, y with
  | .ok u, .ok v => decidable_of_iff (u = v) (by simp)
  | .error u, .error v => decidable_of_iff (u = v) (by simp)
  | .ok _, .error _ => isFalse (by simp)
  | .error _, .ok _ => isFalse (by simp)

/-- C6 counterexample: a directory holding exactly
Affinity_Universal_2.5.0.exe and Affinity_Universal_2.6.1.exe yields zero
candidates, not 2, from both installer scanners: InstallerScanner requires a
photo/designer/publisher alias among the filename tokens, and
INSTALLER_PATTERN requires affinity-(photo|designer|publisher)-x.y.z.exe,
so "universal" files are never recognized. -/
theorem C6_universal_files_not_scanned :
    InstallerScanner.scan
        [("Affinity_Universal_2.5.0.exe", 100),
         ("Affinity_Universal_2.6.1.exe", 100)] = [] ∧
    InstallerDiscovery.scan
        ["Affinity_Universal_2.5.0.exe", "Affinity_Universal_2.6.1.exe"] =
      [] :=
  ⟨by decide, by decide⟩

/-- C6 amended: for a directory containing exactly two recognized
per-product installer files of different versions
(affinity-photo-2.5.0.exe, affinity-photo-2.6.1.exe), scan returns 2
candidates and selecting with no preferred version returns the
highest-version (2.6.1) entry. -/
theorem C6_scan_select_latest :
    (InstallerDiscovery.scan
        ["affinity-photo-2.5.0.exe", "affinity-photo-2.6.1.exe"]).length =
      2 ∧
    InstallerDiscovery.selectInstaller
        ["affinity-photo-2.5.0.exe", "affinity-photo-2.6.1.exe"] "photo"
        none =
      .ok ⟨"photo", "v1", "2.6.1", "affinity-photo-2.6.1.exe"⟩ :=
  ⟨by decide, by decide⟩

namespace DistroDetector

/-- Embeds the PackageManager enum of distro_detector.py. -/
inductive PackageManager
  | apt
  | dnf
  | yum
  | pacman
  | zypper
  | aptitude
deriving Repr, DecidableEq

/-- String value of a PackageManager member. -/
def PackageManager.value : PackageManager → String
  | .apt => "apt"
  | .dnf => "dnf"
  | .yum => "yum"
  | .pacman => "pacman"
  | .zypper => "zypper"
  | .aptitude => "aptitude"

/-- Embeds the DistroFamily enum of distro_detector.py. -/
inductive DistroFamily
  | debian
  | fedora
  | arch
  | suse
  | unknown
deriving Repr, DecidableEq

/-- String value of a DistroFamily member. -/
def DistroFamily.value : DistroFamily → String
  | .debian => "debian"
  | .fedora => "fedora"
  | .arch => "arch"
  | .suse => "suse"
  | .unknown => "unknown"

/-- Embeds DistroDetector.DISTRO_MAPPING in source order. -/
def DISTRO_MAPPING : List (String × DistroFamily × PackageManager) :=
  [ ("ubuntu", .debian, .apt), ("debian", .debian, .apt),
    ("linuxmint", .debian, .apt), ("elementary", .debian, .apt),
    ("pop", .debian, .apt), ("popos", .debian, .apt),
    ("deepin", .debian, .apt),
    ("fedora", .fedora, .dnf), ("rhel", .fedora, .dnf),
    ("centos", .fedora, .dnf), ("rocky", .fedora, .dnf),
    ("almalinux", .fedora, .dnf),
    ("arch", .arch, .pacman), ("manjaro", .arch, .pacman),
    ("garuda", .arch, .pacman), ("endeavouros", .arch, .pacman),
    ("cachyos", .arch, .pacman), ("artix", .arch, .pacman),
    ("opensuse", .suse, .zypper), ("opensuse-leap", .suse, .zypper),
    ("opensuse-tumbleweed", .suse, .zypper), ("suse", .suse, .zypper) ]

/-- Dictionary membership/lookup in DISTRO_MAPPING. -/
def mappingLookup (s : String) : Option (DistroFamily × PackageManager) :=
  (DISTRO_MAPPING.find? (fun e => e.1 == s)).map (fun e => e.2)

/-- Python str.strip() whitespace set. -/
def isWs (c : Char) : Bool :=
  c = ' ' || c = '\t' || c = '\n' || c = '\r' || c = '\x0b' || c = '\x0c'

/-- Python str.strip(): drop leading and trailing whitespace. -/
def trim (cs : List Char) : List Char :=
  ((cs.dropWhile isWs).reverse.dropWhile isWs).reverse

/-- Python str.strip(chars): drop leading and trailing characters of a set. -/
def stripSet (set : List Char) (cs : List Char) : List Char :=
  ((cs.dropWhile (fun c => set.contains c)).reverse.dropWhile
    (fun c => set.contains c)).reverse

/-- Collapse runs of dashes to a single dash (re.sub(r"-+", "-", s)). -/
def collapseDashes : List Char → List Char
  | [] => []
  | c :: rest =>
    let r := collapseDashes rest
    if c = '-' then
      match r with
      | '-' :: _ => r
      | _ => '-' :: r
    else c :: r

/-- Split a character list on one separator character, keeping empty parts
(Python str.split(sep)). -/
def splitOnChar (sep : Char) : List Char → List (List Char)
  | [] => [[]]
  | c :: rest =>
    if c = sep then [] :: splitOnChar sep rest
    else
      match splitOnChar sep rest with
      | h :: t => (c :: h) :: t
      | [] => [[c]]

/-- Split on whitespace runs, dropping empty parts (Python str.split()). -/
def wsSplitAux : List Char → List Char → List (List Char)
  | acc, [] => if acc.isEmpty then [] else [acc.reverse]
  | acc, c :: cs =>
    if isWs c then
      if acc.isEmpty then wsSplitAux [] cs
      else acc.reverse :: wsSplitAux [] cs
    else wsSplitAux (c :: acc) cs

/-- Entry point of the whitespace split. -/
def wsSplit (cs : List Char) : List (List Char) :=
  wsSplitAux [] cs

/-- Contiguous-substring test (Python "needle in haystack"). -/
def isInfixList (needle : List Char) : List Char → Bool
  | [] => needle.isEmpty
  | c :: rest => needle.isPrefixOf (c :: rest) || isInfixList needle rest

/-- Embeds the heuristics dict of _normalize_distro_id, in source order. -/
def NORMALIZE_HEURISTICS : List (String × String) :=
  [ ("arch", "arch"), ("manjaro", "manjaro"), ("garuda", "garuda"),
    ("endeavouros", "endeavouros"), ("cachyos", "cachyos"),
    ("artix", "artix"), ("ubuntu", "ubuntu"), ("debian", "debian"),
    ("mint", "linuxmint"), ("elementary", "elementary"), ("pop", "pop"),
    ("fedora", "fedora"), ("centos", "centos"), ("rhel", "rhel"),
    ("rocky", "rocky"), ("alma", "almalinux"), ("opensuse", "opensuse"),
    ("suse", "suse") ]

/-- Embeds DistroDetector._normalize_distro_id (distro_detector.py lines
240-281): strip whitespace and quotes, lowercase, unify separators
(underscores and whitespace runs to single dashes, collapsed and stripped),
then direct and simplified lookups in DISTRO_MAPPING, then substring
heuristics, falling back to the normalized identifier itself.  The two
re.subs are rendered as mapping whitespace to dashes and collapsing dash
runs, which composes to the same result. -/
def normalizeDistroId (raw : Option String) : Option String :=
  match raw with
  | none => none
  | some r =>
    if r.toList.isEmpty then none
    else
      let s1 := InstallerScanner.lowerChars
        (stripSet ['"', '\''] (trim r.toList))
      let s2 := s1.map (fun c => if c = '_' then '-' else c)
      let s3 := s2.map (fun c => if isWs c then '-' else c)
      let s4 := stripSet ['-'] (collapseDashes s3)
      if s4.isEmpty then none
      else
        let candidates : List (List Char) :=
          [s4, s4.filter (fun c => c ≠ '-'), s4.takeWhile (fun c => c ≠ '-')]
            ++ (if "linux".toList.isSuffixOf s4 ∧ 5 < s4.length then
                  [s4.take (s4.length - 5)]
                else [])
        match candidates.findSome? (fun c =>
            if (mappingLookup (String.mk c)).isSome then some (String.mk c)
            else none) with
        | some c => some c
        | none =>
          let simplified := s4.filter (fun c => c ≠ '-')
          match NORMALIZE_HEURISTICS.findSome? (fun nh =>
              if isInfixList nh.1.toList simplified then some nh.2
              else none) with
          | some canonical => some canonical
          | none => some (String.mk s4)

/-- Embeds DistroDetector._candidate_ids (lines 214-238): the identifier
itself, its dash and whitespace fragments and dash/space-free forms, a
"linux"-suffix-stripped form, deduplicated lowercased in order. -/
def candidateIds (distroId : String) : List String :=
  let normalized := trim distroId.toList
  let base : List (List Char) :=
    (if normalized.isEmpty then [] else [normalized]) ++
    (if normalized.contains '-' then
        ((splitOnChar '-' normalized).filter (fun p => !p.isEmpty)) ++
          [normalized.filter (fun c => c ≠ '-')]
      else []) ++
    (if normalized.contains ' ' then
        (wsSplit normalized) ++ [normalized.filter (fun c => c ≠ ' ')]
      else []) ++
    (if "linux".toList.isSuffixOf normalized ∧ 5 < normalized.length then
        [normalized.take (normalized.length - 5)]
      else [])
  dedupeLower [] base
where
  /-- Order-preserving dedup of lowercased candidates. -/
  dedupeLower (seen : List String) : List (List Char) → List String
  | [] => []
  | c :: cs =>
    let lc := String.mk (InstallerScanner.lowerChars c)
    if seen.contains lc then dedupeLower seen cs
    else lc :: dedupeLower (lc :: seen) cs

/-- Embeds the heuristics list of _map_distro (lines 189-204), in source
order. -/
def MAP_HEURISTICS : List (String × DistroFamily × PackageManager) :=
  [ ("arch", .arch, .pacman), ("manjaro", .arch, .pacman),
    ("garuda", .arch, .pacman), ("debian", .debian, .apt),
    ("ubuntu", .debian, .apt), ("mint", .debian, .apt),
    ("pop", .debian, .apt), ("fedora", .fedora, .dnf),
    ("rhel", .fedora, .dnf), ("centos", .fedora, .dnf),
    ("rocky", .fedora, .dnf), ("alma", .fedora, .dnf),
    ("suse", .suse, .zypper), ("opensuse", .suse, .zypper) ]

/-- Embeds DistroDetector._guess_package_manager (lines 283-298): probe
apt, dnf, pacman, zypper on the search path in order, defaulting to apt. -/
def guessPM (pathHas : List String) : PackageManager :=
  match [PackageManager.apt, PackageManager.dnf, PackageManager.pacman,
      PackageManager.zypper].find? (fun pm => pathHas.contains pm.value) with
  | some pm => pm
  | none => PackageManager.apt

/-- Embeds DistroDetector._map_distro (lines 170-212): direct candidate
lookups against DISTRO_MAPPING (updating the stored identifier to the
matching candidate), then substring heuristics over the dash/space-free
identifier, then UNKNOWN family with a guessed package manager.  Returns
(distro id, family, package manager) as the fields the method assigns. -/
def mapDistro (distroId : Option String) (pathHas : List String) :
    Option String × Option DistroFamily × Option PackageManager :=
  match distroId with
  | none => (none, some .unknown, some (guessPM pathHas))
  | some id0 =>
    match (candidateIds id0).findSome? (fun c =>
        (mappingLookup c).map (fun fp => (c, fp))) with
    | some (c, fam, pm) => (some c, some fam, some pm)
    | none =>
      let simplified := id0.toList.filter (fun c => !(c = '-' || c = ' '))
      match MAP_HEURISTICS.findSome? (fun e =>
          if isInfixList e.1.toList simplified then some e.2 else none) with
      | some (fam, pm) => (some id0, some fam, some pm)
      | none => (some id0, some .unknown, some (guessPM pathHas))

/-- Host state as the detector observes it: the regex match groups of
/etc/os-release when the file exists and is readable, the extracted
lsb_release identifier when that subprocess succeeds and its output
matches, the existence of the distro-specific release files, and the set of
executables found on PATH. -/
structure OsReleaseFields where
  id : Option String
  idLike : Option String
deriving Repr, DecidableEq

/-- Full host state for detection. -/
structure Host where
  osRelease : Option OsReleaseFields
  lsbId : Option String
  fedoraRelease : Bool
  archRelease : Bool
  redhatRelease : Bool
  pathHas : List String
deriving Repr, DecidableEq

/-- Fallback chain after _parse_os_release fails: _parse_lsb_release, then
_parse_distro_files (fedora-release, arch-release, redhat-release,
os-release in dict order; the last maps to the identifier "linux"); when
nothing matches, the detector's fields keep their None initial values. -/
def fallbackDetect (h : Host) :
    Option String × Option DistroFamily × Option PackageManager :=
  match h.lsbId with
  | some g =>
    mapDistro (some (String.mk (trim (InstallerScanner.lowerChars
      g.toList)))) h.pathHas
  | none =>
    if h.fedoraRelease then mapDistro (some "fedora") h.pathHas
    else if h.archRelease then mapDistro (some "arch") h.pathHas
    else if h.redhatRelease then mapDistro (some "rhel") h.pathHas
    else if h.osRelease.isSome then mapDistro (some "linux") h.pathHas
    else (none, none, none)

/-- Embeds DistroDetector._detect (lines 78-89) with _parse_os_release
(lines 91-129): when the os-release ID group matched, normalize it, consult
ID_LIKE for derivative distros whose own id is not in DISTRO_MAPPING, and
map; otherwise fall back to lsb_release and the distro files. -/
def detectState (h : Host) :
    Option String × Option DistroFamily × Option PackageManager :=
  match h.osRelease with
  | some fields =>
    match fields.id with
    | some rawId =>
      let did0 := normalizeDistroId (some rawId)
      let notMapped := match did0 with
        | some s => (mappingLookup s).isNone
        | none => true
      let did1 := match fields.idLike with
        | some likeRaw =>
          if notMapped then
            match (wsSplit likeRaw.toList).findSome? (fun lk =>
                match normalizeDistroId (some (String.mk lk)) with
                | some nl =>
                  if (mappingLookup nl).isSome then some nl else none
                | none => none) with
            | some nl => some nl
            | none => did0
          else did0
        | none => did0
      mapDistro did1 h.pathHas
    | none => fallbackDetect h
  | none => fallbackDetect h

/-- The (family, package manager) slice of get_distro_info (lines 308-316):
None fields render as "unknown". -/
structure DistroInfo where
  family : String
  packageManager : String
deriving Repr, DecidableEq

/-- Embeds constructing a DistroDetector and reading get_distro_info. -/
def detect (h : Host) : DistroInfo :=
  ⟨((detectState h).2.1.map DistroFamily.value).getD "unknown",
   ((detectState h).2.2.map PackageManager.value).getD "unknown"⟩

end DistroDetector

/-- C7: for every host state — including hosts with no OS-identity file, a
failing lsb_release, no distro release files, and no known package-manager
executable — detection is a total function (never throws) and yields a
distro family and a package manager drawn from the closed enum value sets
together with "unknown"; in particular both are always non-null strings. -/
theorem C7_detect_total (h : DistroDetector.Host) :
    (DistroDetector.detect h).family ∈
      ["debian", "fedora", "arch", "suse", "unknown"] ∧
    (DistroDetector.detect h).packageManager ∈
      ["apt", "dnf", "yum", "pacman", "zypper", "aptitude", "unknown"] := by
  unfold DistroDetector.detect
  constructor
  · cases hf : (DistroDetector.detectState h).2.1 with
    | none => simp
    | some f => cases f <;> simp [DistroDetector.DistroFamily.value]
  · cases hp : (DistroDetector.detectState h).2.2 with
    | none => simp
    | some p => cases p <;> simp [DistroDetector.PackageManager.value]

namespace Preflight

/-- Embeds PreflightIssue (preflight.py lines 20-24).  The f-string message
interpolations of paths and sizes are rendered as their fixed text. -/
structure PreflightIssue where
  level : String
  message : String
  hint : Option String
deriving Repr, DecidableEq

/-- Embeds PreflightReport (lines 27-38). -/
structure PreflightReport where
  ok : Bool
  issues : List PreflightIssue
deriving Repr, DecidableEq

/-- Outcome of shutil.disk_usage on the cache directory: the free byte
count, a FileNotFoundError, or any other OSError. -/
inductive DiskUsage
  | ok (free : Nat)
  | fileNotFound
  | osError
deriving Repr, DecidableEq

/-- MIN_FREE_DEFAULT = 5 * 1024 * 1024 * 1024 (preflight.py line 17). -/
def MIN_FREE_DEFAULT : Nat := 5 * 1024 * 1024 * 1024

/-- Embeds PreflightChecker._check_disk_space (lines 66-89): free space
below the minimum is an error, FileNotFoundError is an error, any other
OSError is a warning. -/
def checkDiskSpace (minFree : Nat) (usage : DiskUsage) :
    List PreflightIssue :=
  match usage with
  | .ok free =>
    if free < minFree then
      [⟨"error", "Not enough free space in the cache directory.",
        some "Free up disk space or set --cache-dir to a drive with more capacity."⟩]
    else []
  | .fileNotFound =>
    [⟨"error",
      "Path does not exist and could not be inspected for free space.",
      some "Create the path or choose a different cache directory."⟩]
  | .osError => [⟨"warning", "Could not read disk usage.", none⟩]

/-- Embeds PreflightChecker._check_cache_dir (lines 91-126): mkdir failure
is an error and ends the check; a non-writable directory is an error; a
mode other than 0o700 is a warning (an unreadable mode is passed over). -/
def checkCacheDir (mkdirOk wOk : Bool) (mode : Option Nat) :
    List PreflightIssue :=
  if !mkdirOk then
    [⟨"error", "Cache directory is not writable (mkdir failed).",
      some "Adjust permissions or choose a different cache directory."⟩]
  else
    (if !wOk then
        [⟨"error", "Cache directory is not writable.",
          some "Run with a writable cache directory or adjust permissions."⟩]
      else []) ++
    (match mode with
     | some m =>
       if m ≠ 0o700 then
         [⟨"warning",
           "Cache directory permissions are broader than recommended 0o700.",
           some "Run: chmod 700 ~/.cache/affinity-cli"⟩]
       else []
     | none => [])

/-- Embeds PreflightChecker._check_wine_proton (lines 128-144): the
AFFINITY_CLI_WINE override followed by the conventional binary names; an
error when none resolves on PATH. -/
def checkWineProton (envWine : Option String) (pathHas : List String) :
    List PreflightIssue :=
  let candidates := [envWine, some "wine64", some "wine", some "proton",
    some "proton-run"]
  if candidates.any (fun c =>
      match c with
      | some name => pathHas.contains name
      | none => false) then []
  else
    [⟨"error", "Wine/Proton runtime not found in PATH.",
      some "Install wine64 (or Proton-GE) and ensure it is on PATH, or set AFFINITY_CLI_WINE."⟩]

/-- Embeds PreflightChecker._check_gpu_vulkan (lines 146-161): a missing
vulkaninfo is a warning only; the GPU vendor probe merely logs. -/
def checkGpuVulkan (pathHas : List String) : List PreflightIssue :=
  if pathHas.contains "vulkaninfo" then []
  else
    [⟨"warning", "Vulkan utilities not found (vulkaninfo missing).",
      some "Install Vulkan drivers for your GPU (e.g., mesa-vulkan-drivers, nvidia-utils)."⟩]

/-- Embeds PreflightChecker._check_distro (lines 187-209): an unknown
package manager is a warning; a known one missing from PATH is a warning. -/
def checkDistro (host : DistroDetector.Host) : List PreflightIssue :=
  let pm := (DistroDetector.detect host).packageManager
  if pm = "unknown" then
    [⟨"warning",
      "Could not determine package manager for your distribution.",
      some "Install Wine and Vulkan manually for your distro."⟩]
  else if !(host.pathHas.contains pm) then
    [⟨"warning", "Package manager not found in PATH.",
      some "Install or configure the package manager to allow dependency installation."⟩]
  else []

/-- Host state for the preflight run: the disk_usage outcome, the cache
mkdir/access/stat observations, the AFFINITY_CLI_WINE override, and the
distro-detection host state, whose pathHas list models shutil.which for
every check. -/
structure PFHost where
  disk : DiskUsage
  mkdirOk : Bool
  writable : Bool
  mode : Option Nat
  envWine : Option String
  distroHost : DistroDetector.Host
deriving Repr, DecidableEq

/-- Embeds PreflightChecker.run (lines 53-61): all five checks run
independently and aggregate; ok is true iff no issue has error severity. -/
def run (minFree : Nat) (h : PFHost) : PreflightReport :=
  let issues :=
    checkDiskSpace minFree h.disk ++
    checkCacheDir h.mkdirOk h.writable h.mode ++
    checkWineProton h.envWine h.distroHost.pathHas ++
    checkGpuVulkan h.distroHost.pathHas ++
    checkDistro h.distroHost
  ⟨!(issues.any (fun i => i.level == "error")), issues⟩

end Preflight

/-- C8 counterexample: on a host whose cache path stat raises an OSError
other than FileNotFoundError (a path that cannot be statted), the disk
check emits only a warning, every other check passes, and the whole report
is ok with no error-severity issue — the claim's "error whenever the path
cannot be statted" fails. -/
theorem C8_oserror_is_warning :
    Preflight.checkDiskSpace Preflight.MIN_FREE_DEFAULT
        Preflight.DiskUsage.osError =
      [⟨"warning", "Could not read disk usage.", none⟩] ∧
    (Preflight.run Preflight.MIN_FREE_DEFAULT
        ⟨Preflight.DiskUsage.osError, true, true, some 0o700, none,
          ⟨some ⟨some "ubuntu", none⟩, none, false, false, false,
            ["apt", "wine64", "vulkaninfo"]⟩⟩).ok = true ∧
    (Preflight.run Preflight.MIN_FREE_DEFAULT
        ⟨Preflight.DiskUsage.osError, true, true, some 0o700, none,
          ⟨some ⟨some "ubuntu", none⟩, none, false, false, false,
            ["apt", "wine64", "vulkaninfo"]⟩⟩).issues.any
      (fun i => i.level == "error") = false :=
  ⟨by decide, by decide, by decide⟩

/-- C8 amended: the disk check reports an error-severity issue whenever
free space is below the minimum and whenever the path does not exist
(FileNotFoundError) — and in both cases the whole report carries that error
and ok is false — while any other stat failure (OSError) produces only a
warning-severity issue. -/
theorem C8_disk_space_check (minFree free : Nat) (h : Preflight.PFHost)
    (hdisk : h.disk = Preflight.DiskUsage.ok free) (hfree : free < minFree) :
    ((Preflight.run minFree h).ok = false ∧
      ∃ i ∈ (Preflight.run minFree h).issues,
        i.level = "error" ∧ i ∈ Preflight.checkDiskSpace minFree h.disk) ∧
    (∀ h2 : Preflight.PFHost,
      h2.disk = Preflight.DiskUsage.fileNotFound →
      (Preflight.run minFree h2).ok = false ∧
      ∃ i ∈ (Preflight.run minFree h2).issues,
        i.level = "error" ∧ i ∈ Preflight.checkDiskSpace minFree h2.disk) ∧
    Preflight.checkDiskSpace minFree Preflight.DiskUsage.osError =
      [⟨"warning", "Could not read disk usage.", none⟩] := by
  refine ⟨?_, ?_, rfl⟩
  · have hd : Preflight.checkDiskSpace minFree h.disk =
        [⟨"error", "Not enough free space in the cache directory.",
          some "Free up disk space or set --cache-dir to a drive with more capacity."⟩] := by
      simp [Preflight.checkDiskSpace, hdisk, hfree]
    constructor
    · simp [Preflight.run, hd]
    · refine ⟨⟨"error", "Not enough free space in the cache directory.",
        some "Free up disk space or set --cache-dir to a drive with more capacity."⟩,
        ?_, rfl, ?_⟩
      · simp [Preflight.run, hd]
      · simp [hd]
  · intro h2 hdisk2
    have hd : Preflight.checkDiskSpace minFree h2.disk =
        [⟨"error",
          "Path does not exist and could not be inspected for free space.",
          some "Create the path or choose a different cache directory."⟩] := by
      simp [Preflight.checkDiskSpace, hdisk2]
    constructor
    · simp [Preflight.run, hd]
    · refine ⟨⟨"error",
        "Path does not exist and could not be inspected for free space.",
        some "Create the path or choose a different cache directory."⟩,
        ?_, rfl, ?_⟩
      · simp [Preflight.run, hd]
      · simp [hd]

/-- Witness for C8 at a host with zero free bytes at the cache path: the
report is not ok. -/
theorem C8_disk_space_check_witness :
    (Preflight.run Preflight.MIN_FREE_DEFAULT
        ⟨Preflight.DiskUsage.ok 0, true, true, some 0o700, none,
          ⟨some ⟨some "ubuntu", none⟩, none, false, false, false,
            ["apt", "wine64", "vulkaninfo"]⟩⟩).ok = false :=
  (C8_disk_space_check Preflight.MIN_FREE_DEFAULT 0
      ⟨Preflight.DiskUsage.ok 0, true, true, some 0o700, none,
        ⟨some ⟨some "ubuntu", none⟩, none, false, false, false,
          ["apt", "wine64", "vulkaninfo"]⟩⟩
      rfl (by decide)).1.1
